import Mathlib

/-!
Verification of the FraudShield scoring pipeline.

Shallow embedding of `src/backend/pipeline/model_infer.py`,
`src/backend/pipeline/feature_engineering.py`, `src/backend/utils/db.py`
and `src/backend/schemas.py`.  Python floats are modelled as exact
rationals; library calls whose numeric output is irrational or
process-dependent (`math.log`, `np.sqrt` inside `np.std`,
`geopy.distance.geodesic`, the builtin string `hash`) are environment
parameters, and fallible operations return `Except`.
-/

namespace FraudShield

/-- Channel enumeration from `schemas.ChannelType`. -/
inductive Channel where
  | card_present
  | web
  | app
  | phone
deriving DecidableEq, Repr

/-- Transaction record from `schemas.Transaction`.  `ts` is the UTC
timestamp in whole seconds since the epoch; `lat`/`lon`, `device_id`,
`ip` and `is_fraud` are optional exactly as in the pydantic model. -/
structure Transaction where
  txn_id : String
  ts : ℤ
  amount : ℚ
  merchant_cat : String
  merchant_id : String
  mcc : String
  currency : String
  country : String
  city : String
  lat : Option ℚ
  lon : Option ℚ
  channel : Channel
  card_id : String
  customer_id : String
  device_id : Option String
  ip : Option String
  is_fraud : Option Bool
deriving DecidableEq, Repr

/-- One row of `DatabaseManager.get_customer_history` output: the dict
selected from the `transactions` table (`ts, amount, merchant_id,
country, city, lat, lon, device_id, ip`; NOT NULL columns are plain,
nullable columns are `Option`). -/
structure HistRow where
  ts : ℤ
  amount : ℚ
  merchant_id : String
  country : String
  city : String
  lat : Option ℚ
  lon : Option ℚ
  device_id : Option String
  ip : Option String
deriving DecidableEq, Repr

/-- Merchant aggregate from `DatabaseManager.get_merchant_stats`. -/
structure MerchantStats where
  total_transactions : ℕ
  avg_amount : ℚ
  fraud_count : ℕ
  fraud_rate : ℚ
deriving DecidableEq, Repr

/-- The 34-field `schemas.FeatureVector`, with the pydantic field types:
floats as `ℚ`, ints as `ℕ` or `ℤ`, booleans as `Bool`, and the one
`Optional[float]` field as `Option ℚ`. -/
structure FeatureVector where
  amount : ℚ
  amount_z_score : ℚ
  amount_log : ℚ
  amount_rolling_mean_1h : ℚ
  amount_rolling_std_1h : ℚ
  amount_rolling_mean_24h : ℚ
  amount_rolling_std_24h : ℚ
  txn_count_5m : ℕ
  txn_count_1h : ℕ
  txn_count_24h : ℕ
  distinct_merchants_5m : ℕ
  distinct_merchants_1h : ℕ
  distinct_merchants_24h : ℕ
  distance_from_home : ℚ
  speed_from_last_txn : Option ℚ
  country_change : Bool
  city_change : Bool
  hour_of_day : ℤ
  day_of_week : ℤ
  is_holiday : Bool
  is_weekend : Bool
  merchant_fraud_rate : ℚ
  mcc_fraud_rate : ℚ
  merchant_txn_count : ℕ
  device_rarity_score : ℚ
  ip_rarity_score : ℚ
  device_change : Bool
  ip_change : Bool
  channel_card_present : Bool
  channel_web : Bool
  channel_app : Bool
  merchant_id_encoded : ℚ
  mcc_encoded : ℚ
  country_encoded : ℚ
deriving DecidableEq, Repr

/-- `schemas.ScoreResult` (the `explanation` dict is not needed by any
claim and is omitted). -/
structure ScoreResult where
  score : ℚ
  threshold : ℚ
  is_alert : Bool
  model_used : String
  confidence : ℚ
deriving DecidableEq, Repr

/-- `FraudDetector.__init__` sets `self.threshold = 0.95`; no other code
path reassigns it. -/
def defaultThreshold : ℚ := 95 / 100

/-- Booleans are sent to numpy as 0.0 / 1.0 by `_features_to_array`. -/
def boolToRat (b : Bool) : ℚ := if b then 1 else 0

/-- `FraudDetector._features_to_array`: the canonical 34-element numeric
array, with `features.speed_from_last_txn or 0` collapsing both `None`
and `0.0` to `0`. -/
def features_to_array (v : FeatureVector) : List ℚ :=
  [v.amount, v.amount_z_score, v.amount_log,
   v.amount_rolling_mean_1h, v.amount_rolling_std_1h,
   v.amount_rolling_mean_24h, v.amount_rolling_std_24h,
   (v.txn_count_5m : ℚ), (v.txn_count_1h : ℚ), (v.txn_count_24h : ℚ),
   (v.distinct_merchants_5m : ℚ), (v.distinct_merchants_1h : ℚ),
   (v.distinct_merchants_24h : ℚ),
   v.distance_from_home, v.speed_from_last_txn.getD 0,
   boolToRat v.country_change, boolToRat v.city_change,
   (v.hour_of_day : ℚ), (v.day_of_week : ℚ),
   boolToRat v.is_holiday, boolToRat v.is_weekend,
   v.merchant_fraud_rate, v.mcc_fraud_rate, (v.merchant_txn_count : ℚ),
   v.device_rarity_score, v.ip_rarity_score,
   boolToRat v.device_change, boolToRat v.ip_change,
   boolToRat v.channel_card_present, boolToRat v.channel_web,
   boolToRat v.channel_app,
   v.merchant_id_encoded, v.mcc_encoded, v.country_encoded]

/-- Loaded model artifacts of a `FraudDetector` instance.  Each model is
an abstract function of the feature array; `Except` is raised-exception
behaviour inside the corresponding `try` block, and `none` is an
unloaded (`None`) model. -/
structure ModelEnv where
  ifModel : Option (List ℚ → Except Unit ℚ)
  scaler : Option (List ℚ → Except Unit (List ℚ))
  aeNet : Option (List ℚ → Except Unit (List ℚ))

/-- `FraudDetector._isolation_forest_score`: `0.5` when the model is
`None` or anything in the body raises, otherwise the negated raw
`score_samples` output clamped to `[0, 1]`. -/
def isolationForestScore (model : Option (List ℚ → Except Unit ℚ))
    (arr : List ℚ) : ℚ :=
  match model with
  | none => 1 / 2
  | some f =>
    match f arr with
    | .error _ => 1 / 2
    | .ok raw => max 0 (min 1 (-raw))

/-- `torch.nn.MSELoss()(pred, target)`: mean over the elements of the
squared differences (the autoencoder reconstructs a vector of the same
length as its input, so the zip loses nothing). -/
def mseLoss (pred target : List ℚ) : ℚ :=
  ((List.zip pred target).map (fun p => (p.1 - p.2) ^ 2)).sum /
    (target.length : ℚ)

/-- `FraudDetector._autoencoder_score`: `0.5` when the autoencoder or
the scaler is `None` or anything raises; otherwise the mean squared
reconstruction error of the scaled array, times the normalization
factor 10, capped at `1.0` by `min(1.0, score * 10)`. -/
def autoencoderScore (scaler : Option (List ℚ → Except Unit (List ℚ)))
    (net : Option (List ℚ → Except Unit (List ℚ))) (arr : List ℚ) : ℚ :=
  match scaler, net with
  | some sc, some f =>
    match sc arr with
    | .error _ => 1 / 2
    | .ok normalized =>
      match f normalized with
      | .error _ => 1 / 2
      | .ok reconstructed =>
        min 1 (mseLoss reconstructed normalized * 10)
  | _, _ => 1 / 2

/-- The default `ScoreResult` built in the `except` branch of
`FraudDetector.score`. -/
def fallbackResult : ScoreResult :=
  { score := 1 / 2
    threshold := defaultThreshold
    is_alert := false
    model_used := "fallback"
    confidence := 0 }

/-- `FraudDetector.score`.  The two sub-scorers swallow their own
exceptions; `exc` models an exception raised anywhere else in the `try`
body (model loading, array conversion, explanation generation), which
the enclosing `except` turns into `fallbackResult`.  On the normal path
the ensemble is `0.4 * if_score + 0.6 * ae_score`, the threshold is the
instance constant, `is_alert = ensemble > threshold` and
`confidence = min(ensemble * 1.2, 1.0)`. -/
def FraudDetector.score (env : ModelEnv) (exc : Bool)
    (v : FeatureVector) : ScoreResult :=
  if exc then fallbackResult
  else
    let arr := features_to_array v
    let if_score := isolationForestScore env.ifModel arr
    let ae_score := autoencoderScore env.scaler env.aeNet arr
    let ensemble := 4 / 10 * if_score + 6 / 10 * ae_score
    { score := ensemble
      threshold := defaultThreshold
      is_alert := decide (ensemble > defaultThreshold)
      model_used := "ensemble"
      confidence := min (ensemble * (12 / 10)) 1 }

/-- Process environment for the feature engineer: the library functions
whose exact numeric value the embedding does not reproduce.  `hash` is
the Python builtin string hash — randomized per process for `str`
inputs (PEP 456), so two processes generally carry two different
`hash` functions.  `geodesic` is `geopy.distance.geodesic(..).kilometers`
on a pair of `(lat, lon)` points and may raise.  `log` is `math.log`
and `sqrt` the square root used inside `np.std`. -/
structure PyEnv where
  hash : String → ℤ
  geodesic : ℚ × ℚ → ℚ × ℚ → Except Unit ℚ
  log : ℚ → ℚ
  sqrt : ℚ → ℚ

/-- Mean of a list as `np.mean` (callers guard against the empty list). -/
def listMean (l : List ℚ) : ℚ := l.sum / (l.length : ℚ)

/-- `np.std`: square root of the population variance. -/
def npStd (sq : ℚ → ℚ) (l : List ℚ) : ℚ :=
  sq (listMean (l.map (fun x => (x - listMean l) ^ 2)))

/-- Output dict of `FeatureEngineer._calculate_amount_features`. -/
structure AmountFeatures where
  z_score : ℚ
  log_amount : ℚ
  rolling_mean_1h : ℚ
  rolling_std_1h : ℚ
  rolling_mean_24h : ℚ
  rolling_std_24h : ℚ

/-- `FeatureEngineer._calculate_amount_features`. -/
def calculate_amount_features (env : PyEnv) (T : Transaction)
    (H : List HistRow) : AmountFeatures :=
  let amounts := (H.filter (fun r => 0 < r.amount)).map (·.amount)
  if amounts.isEmpty then
    { z_score := 0
      log_amount := env.log (T.amount + 1)
      rolling_mean_1h := 0
      rolling_std_1h := 1
      rolling_mean_24h := 0
      rolling_std_24h := 1 }
  else
    let mean_amount := listMean amounts
    let std_amount := if 1 < amounts.length then npStd env.sqrt amounts else 1
    let z := if 0 < std_amount then (T.amount - mean_amount) / std_amount else 0
    let recent := ((H.filter (fun r => T.ts - 3600 ≤ r.ts ∧ 0 < r.amount)).map (·.amount))
    { z_score := z
      log_amount := env.log (T.amount + 1)
      rolling_mean_1h := if recent.isEmpty then 0 else listMean recent
      rolling_std_1h := if 1 < recent.length then npStd env.sqrt recent else 1
      rolling_mean_24h := mean_amount
      rolling_std_24h := std_amount }

/-- Output dict of `FeatureEngineer._calculate_velocity_features`. -/
structure VelocityFeatures where
  txn_count_5m : ℕ
  txn_count_1h : ℕ
  txn_count_24h : ℕ
  distinct_merchants_5m : ℕ
  distinct_merchants_1h : ℕ
  distinct_merchants_24h : ℕ

/-- `FeatureEngineer._calculate_velocity_features`: counts and distinct
merchant counts over the 5-minute, 1-hour, 24-hour windows
`{h : h.ts ≥ T.ts - w}`; `len(set(..))` is the deduplicated length. -/
def calculate_velocity_features (T : Transaction)
    (H : List HistRow) : VelocityFeatures :=
  let recent_5m := H.filter (fun r => T.ts - 300 ≤ r.ts)
  let recent_1h := H.filter (fun r => T.ts - 3600 ≤ r.ts)
  let recent_24h := H.filter (fun r => T.ts - 86400 ≤ r.ts)
  { txn_count_5m := recent_5m.length
    txn_count_1h := recent_1h.length
    txn_count_24h := recent_24h.length
    distinct_merchants_5m := (recent_5m.map (·.merchant_id)).dedup.length
    distinct_merchants_1h := (recent_1h.map (·.merchant_id)).dedup.length
    distinct_merchants_24h := (recent_24h.map (·.merchant_id)).dedup.length }

/-- Python truthiness of an optional float: `None` and `0.0` are falsy. -/
def pyTruthyQ : Option ℚ → Bool
  | none => false
  | some q => decide (q ≠ 0)

/-- Output dict of `FeatureEngineer._calculate_geo_features`. -/
structure GeoFeatures where
  distance_from_home : ℚ
  speed_from_last_txn : Option ℚ
  country_change : Bool
  city_change : Bool

/-- `FeatureEngineer._calculate_geo_features`.  `speed_from_last_txn`
starts as `None`; coordinates are tested with Python truthiness (so a
`0.0` coordinate is skipped like a missing one); a raise inside the
`try` (the geodesic call) is swallowed by `except: pass` and leaves
`None`; otherwise the speed is `distance / time_diff` in km/h when
`time_diff > 0` and `0.0` when `time_diff ≤ 0`. -/
def calculate_geo_features (env : PyEnv) (T : Transaction)
    (H : List HistRow) : GeoFeatures :=
  match H with
  | [] =>
    { distance_from_home := 0
      speed_from_last_txn := none
      country_change := false
      city_change := false }
  | last_txn :: _ =>
    let speed : Option ℚ :=
      if pyTruthyQ T.lat && pyTruthyQ T.lon &&
          pyTruthyQ last_txn.lat && pyTruthyQ last_txn.lon then
        match env.geodesic (last_txn.lat.getD 0, last_txn.lon.getD 0)
            (T.lat.getD 0, T.lon.getD 0) with
        | .error _ => none
        | .ok distance =>
          let time_diff : ℚ := ((T.ts - last_txn.ts : ℤ) : ℚ) / 3600
          if 0 < time_diff then some (distance / time_diff) else some 0
      else none
    { distance_from_home := 0
      speed_from_last_txn := speed
      country_change := decide (last_txn.country ≠ T.country)
      city_change := decide (last_txn.city ≠ T.city) }

/-- `transaction.ts.hour` for an epoch-seconds UTC timestamp. -/
def tsHour (ts : ℤ) : ℤ := (Int.fdiv ts 3600) % 24

/-- `transaction.ts.weekday()` (Monday = 0): the epoch fell on a
Thursday, weekday 3. -/
def tsWeekday (ts : ℤ) : ℤ := (Int.fdiv ts 86400 + 3) % 7

/-- Output dict of `FeatureEngineer._calculate_time_features`. -/
structure TimeFeatures where
  hour_of_day : ℤ
  day_of_week : ℤ
  is_holiday : Bool
  is_weekend : Bool

/-- `FeatureEngineer._calculate_time_features`. -/
def calculate_time_features (T : Transaction) : TimeFeatures :=
  { hour_of_day := tsHour T.ts
    day_of_week := tsWeekday T.ts
    is_holiday := false
    is_weekend := decide (5 ≤ tsWeekday T.ts) }

/-- Output dict of `FeatureEngineer._calculate_merchant_features`. -/
structure MerchantFeatures where
  fraud_rate : ℚ
  mcc_fraud_rate : ℚ
  txn_count : ℕ

/-- `FeatureEngineer._calculate_merchant_features`. -/
def calculate_merchant_features (M : MerchantStats) : MerchantFeatures :=
  { fraud_rate := M.fraud_rate
    mcc_fraud_rate := 1 / 100
    txn_count := M.total_transactions }

/-- A Python value as produced by the `and`-chains in
`_calculate_device_features`: a bool, `None`, or a string. -/
inductive PyVal where
  | pbool (b : Bool)
  | pnone
  | pstr (s : String)
deriving DecidableEq, Repr

/-- The Python expression `(a != b and b and a)` for optional strings
`a` (history value) and `b` (transaction value): `and` returns its
first falsy operand, or the last operand when all are truthy (`None`
and the empty string are falsy). -/
def pyAndChange (a b : Option String) : PyVal :=
  if a = b then .pbool false
  else
    match b with
    | none => .pnone
    | some sb =>
      if sb = "" then .pstr ""
      else
        match a with
        | none => .pnone
        | some sa => .pstr sa

/-- Output dict of `FeatureEngineer._calculate_device_features`; the
two change values are raw Python values, not yet booleans. -/
structure DeviceFeatures where
  device_rarity : ℚ
  ip_rarity : ℚ
  device_change : PyVal
  ip_change : PyVal

/-- `FeatureEngineer._calculate_device_features`. -/
def calculate_device_features (T : Transaction)
    (H : List HistRow) : DeviceFeatures :=
  match H with
  | [] =>
    { device_rarity := 1, ip_rarity := 1
      device_change := .pbool false, ip_change := .pbool false }
  | last_txn :: _ =>
    { device_rarity := 1, ip_rarity := 1
      device_change := pyAndChange last_txn.device_id T.device_id
      ip_change := pyAndChange last_txn.ip T.ip }

/-- Output dict of `FeatureEngineer._calculate_channel_features`. -/
structure ChannelFeatures where
  card_present : Bool
  web : Bool
  app : Bool

/-- `FeatureEngineer._calculate_channel_features`. -/
def calculate_channel_features (T : Transaction) : ChannelFeatures :=
  { card_present := decide (T.channel = Channel.card_present)
    web := decide (T.channel = Channel.web)
    app := decide (T.channel = Channel.app) }

/-- ASCII lower-casing of one character (`str.lower()` on the ASCII
range, which covers pydantic's boolean table). -/
def lowerChar (c : Char) : Char :=
  if 'A' ≤ c && c ≤ 'Z' then Char.ofNat (c.toNat + 32) else c

/-- `s.lower()` for ASCII strings. -/
def strLower (s : String) : String := ⟨s.data.map lowerChar⟩

/-- Pydantic v1 coercion of a value into a `bool` field: booleans pass
through, `None` is rejected, and a string is accepted only when its
lower-cased form is in the fixed boolean table. -/
def pydanticBool : PyVal → Except Unit Bool
  | .pbool b => .ok b
  | .pnone => .error ()
  | .pstr s =>
    let l := strLower s
    if l = "0" || l = "off" || l = "f" || l = "false" || l = "n" || l = "no" then
      .ok false
    else if l = "1" || l = "on" || l = "t" || l = "true" || l = "y" || l = "yes" then
      .ok true
    else .error ()

/-- `FeatureEngineer._get_default_features`: the vector built when
feature engineering fails.  History-derived fields take their
empty-history defaults, the time fields and channel flags still come
from the transaction, and the three categorical encodings are the
constant `0.5`. -/
def get_default_features (env : PyEnv) (T : Transaction) : FeatureVector :=
  { amount := T.amount
    amount_z_score := 0
    amount_log := env.log (T.amount + 1)
    amount_rolling_mean_1h := 0
    amount_rolling_std_1h := 1
    amount_rolling_mean_24h := 0
    amount_rolling_std_24h := 1
    txn_count_5m := 0
    txn_count_1h := 0
    txn_count_24h := 0
    distinct_merchants_5m := 0
    distinct_merchants_1h := 0
    distinct_merchants_24h := 0
    distance_from_home := 0
    speed_from_last_txn := none
    country_change := false
    city_change := false
    hour_of_day := tsHour T.ts
    day_of_week := tsWeekday T.ts
    is_holiday := false
    is_weekend := decide (5 ≤ tsWeekday T.ts)
    merchant_fraud_rate := 0
    mcc_fraud_rate := 1 / 100
    merchant_txn_count := 0
    device_rarity_score := 1
    ip_rarity_score := 1
    device_change := false
    ip_change := false
    channel_card_present := decide (T.channel = Channel.card_present)
    channel_web := decide (T.channel = Channel.web)
    channel_app := decide (T.channel = Channel.app)
    merchant_id_encoded := 1 / 2
    mcc_encoded := 1 / 2
    country_encoded := 1 / 2 }

/-- `FeatureEngineer.engineer_features`.  The two database reads (the
customer history and the merchant stats) are `Except` arguments; a
raise from either, or a pydantic `ValidationError` while constructing
the `FeatureVector` (the `device_change` / `ip_change` values are raw
Python values that the `bool` fields must parse), lands in the
`except` branch, which returns `_get_default_features(transaction)`.
The categorical encodings are `hash(x) % 1000 / 1000.0` with the
process-salted builtin `hash`. -/
def engineer_features (env : PyEnv) (T : Transaction)
    (hist : Except Unit (List HistRow))
    (stats : Except Unit MerchantStats) : FeatureVector :=
  match hist, stats with
  | .ok H, .ok M =>
    let af := calculate_amount_features env T H
    let vf := calculate_velocity_features T H
    let gf := calculate_geo_features env T H
    let tf := calculate_time_features T
    let mf := calculate_merchant_features M
    let df := calculate_device_features T H
    let cf := calculate_channel_features T
    match pydanticBool df.device_change, pydanticBool df.ip_change with
    | .ok dc, .ok ic =>
      { amount := T.amount
        amount_z_score := af.z_score
        amount_log := af.log_amount
        amount_rolling_mean_1h := af.rolling_mean_1h
        amount_rolling_std_1h := af.rolling_std_1h
        amount_rolling_mean_24h := af.rolling_mean_24h
        amount_rolling_std_24h := af.rolling_std_24h
        txn_count_5m := vf.txn_count_5m
        txn_count_1h := vf.txn_count_1h
        txn_count_24h := vf.txn_count_24h
        distinct_merchants_5m := vf.distinct_merchants_5m
        distinct_merchants_1h := vf.distinct_merchants_1h
        distinct_merchants_24h := vf.distinct_merchants_24h
        distance_from_home := gf.distance_from_home
        speed_from_last_txn := gf.speed_from_last_txn
        country_change := gf.country_change
        city_change := gf.city_change
        hour_of_day := tf.hour_of_day
        day_of_week := tf.day_of_week
        is_holiday := tf.is_holiday
        is_weekend := tf.is_weekend
        merchant_fraud_rate := mf.fraud_rate
        mcc_fraud_rate := mf.mcc_fraud_rate
        merchant_txn_count := mf.txn_count
        device_rarity_score := df.device_rarity
        ip_rarity_score := df.ip_rarity
        device_change := dc
        ip_change := ic
        channel_card_present := cf.card_present
        channel_web := cf.web
        channel_app := cf.app
        merchant_id_encoded := (((env.hash T.merchant_id) % 1000 : ℤ) : ℚ) / 1000
        mcc_encoded := (((env.hash T.mcc) % 1000 : ℤ) : ℚ) / 1000
        country_encoded := (((env.hash T.country) % 1000 : ℤ) : ℚ) / 1000 }
    | _, _ => get_default_features env T
  | _, _ => get_default_features env T

/-- Persistent state of the three relations written by
`DatabaseManager.store_transaction`, each keyed by `txn_id` (the
primary key).  Row payloads are the stored records. -/
structure DBState where
  transactions : List (String × Transaction)
  features : List (String × FeatureVector)
  scores : List (String × ScoreResult)
deriving DecidableEq, Repr

/-- `INSERT ... ON CONFLICT (txn_id) DO NOTHING`: a row whose key is
already present leaves the relation unchanged; otherwise the row is
appended. -/
def insertDoNothing {α : Type} (k : String) (v : α)
    (rel : List (String × α)) : List (String × α) :=
  if rel.any (fun p => p.1 = k) then rel else rel ++ [(k, v)]

/-- `DatabaseManager.store_transaction`: three conflict-free upserts
keyed by `transaction.txn_id`, one per relation. -/
def store_transaction (st : DBState) (t : Transaction)
    (f : FeatureVector) (s : ScoreResult) : DBState :=
  { transactions := insertDoNothing t.txn_id t st.transactions
    features := insertDoNothing t.txn_id f st.features
    scores := insertDoNothing t.txn_id s st.scores }

/-- `DatabaseManager.get_merchant_stats`: the SQL aggregate
`COUNT(*), AVG(amount), COUNT(CASE WHEN is_fraud = true THEN 1 END)`
and `COUNT(..)::float / COUNT(*)` over the rows of the `transactions`
relation with the given `merchant_id`.  PostgreSQL raises `division by
zero` for float division by zero, which happens exactly when no row
matches (`COUNT(*) = 0`); the Python `float(x) if x else 0.0` guards
only rewrite SQL NULL (and zero) to `0.0` and cannot fire then. -/
def get_merchant_stats (rows : List Transaction)
    (merchant_id : String) : Except String MerchantStats :=
  let sel := rows.filter (fun r => r.merchant_id = merchant_id)
  let total := sel.length
  let fraud := (sel.filter (fun r => r.is_fraud = some true)).length
  if total = 0 then .error "division by zero"
  else
    .ok { total_transactions := total
          avg_amount := (sel.map (·.amount)).sum / (total : ℚ)
          fraud_count := fraud
          fraud_rate := (fraud : ℚ) / (total : ℚ) }

/-!  Sample concrete values used by witnesses and counterexamples.  -/

/-- A concrete process environment (one fixed process). -/
def envA : PyEnv :=
  { hash := fun _ => 0
    geodesic := fun _ _ => .ok 0
    log := fun _ => 0
    sqrt := fun _ => 0 }

/-- A second concrete process environment whose builtin `hash` salt
differs (a second Python process). -/
def envB : PyEnv :=
  { hash := fun _ => 1
    geodesic := fun _ _ => .ok 0
    log := fun _ => 0
    sqrt := fun _ => 0 }

/-- A concrete benign transaction. -/
def sampleTxn : Transaction :=
  { txn_id := "txn-001"
    ts := 1700000000
    amount := 100
    merchant_cat := "retail"
    merchant_id := "merch_1"
    mcc := "5411"
    currency := "USD"
    country := "US"
    city := "NY"
    lat := some 40
    lon := some (-74)
    channel := Channel.card_present
    card_id := "card_1"
    customer_id := "cust_1"
    device_id := some "devB"
    ip := some "10.0.0.2"
    is_fraud := none }

/-- A concrete history row dated 10 minutes before `sampleTxn`, with a
different device and ip. -/
def sampleHist : HistRow :=
  { ts := 1700000000 - 600
    amount := 50
    merchant_id := "merch_2"
    country := "US"
    city := "NY"
    lat := some 40
    lon := some (-74)
    device_id := some "devA"
    ip := some "10.0.0.1" }

/-- Concrete merchant stats. -/
def sampleStats : MerchantStats :=
  { total_transactions := 10
    avg_amount := 42
    fraud_count := 0
    fraud_rate := 0 }

/-- A concrete feature vector (the default vector of `sampleTxn` under
`envA`). -/
def sampleFV : FeatureVector := get_default_features envA sampleTxn

/-- A concrete score result. -/
def sampleSR : ScoreResult := fallbackResult

/-- A concrete detector with no loaded artifacts. -/
def sampleModelEnv : ModelEnv :=
  { ifModel := none, scaler := none, aeNet := none }

/-!  Helper lemmas shared by the claim theorems.  -/

theorem isolationForestScore_nonneg (m : Option (List ℚ → Except Unit ℚ))
    (arr : List ℚ) : 0 ≤ isolationForestScore m arr := by
  rcases m with _ | f
  · norm_num [isolationForestScore]
  · rcases h : f arr with e | raw
    · norm_num [isolationForestScore, h]
    · simp only [isolationForestScore, h]
      exact le_max_left 0 _

theorem isolationForestScore_le_one (m : Option (List ℚ → Except Unit ℚ))
    (arr : List ℚ) : isolationForestScore m arr ≤ 1 := by
  rcases m with _ | f
  · norm_num [isolationForestScore]
  · rcases h : f arr with e | raw
    · norm_num [isolationForestScore, h]
    · simp only [isolationForestScore, h]
      exact max_le (by norm_num) (min_le_left _ _)

theorem mseLoss_nonneg (pred target : List ℚ) : 0 ≤ mseLoss pred target := by
  unfold mseLoss
  apply div_nonneg
  · apply List.sum_nonneg
    intro x hx
    rcases List.mem_map.mp hx with ⟨p, _, rfl⟩
    positivity
  · positivity

theorem autoencoderScore_nonneg (sc net : Option (List ℚ → Except Unit (List ℚ)))
    (arr : List ℚ) : 0 ≤ autoencoderScore sc net arr := by
  rcases sc with _ | s
  · norm_num [autoencoderScore]
  · rcases net with _ | f
    · norm_num [autoencoderScore]
    · rcases hs : s arr with e | normalized
      · norm_num [autoencoderScore, hs]
      · rcases hf : f normalized with e | reconstructed
        · norm_num [autoencoderScore, hs, hf]
        · simp only [autoencoderScore, hs, hf]
          refine le_min (by norm_num) ?_
          have h0 := mseLoss_nonneg reconstructed normalized
          positivity

theorem autoencoderScore_le_one (sc net : Option (List ℚ → Except Unit (List ℚ)))
    (arr : List ℚ) : autoencoderScore sc net arr ≤ 1 := by
  rcases sc with _ | s
  · norm_num [autoencoderScore]
  · rcases net with _ | f
    · norm_num [autoencoderScore]
    · rcases hs : s arr with e | normalized
      · norm_num [autoencoderScore, hs]
      · rcases hf : f normalized with e | reconstructed
        · norm_num [autoencoderScore, hs, hf]
        · simp only [autoencoderScore, hs, hf]
          exact min_le_left _ _

/-!  Claim theorems.  -/

/-- Claim C1: on every scoring call that does not raise, the returned
`ScoreResult` has `score = 0.4 * if_score + 0.6 * ae_score`, both
sub-scores and the score lie in `[0, 1]`, the threshold is the default
`0.95` (hence in `[0, 1]`), and `is_alert` holds iff
`score > threshold`. -/
theorem C1_ensemble_score (env : ModelEnv) (v : FeatureVector) :
    (FraudDetector.score env false v).score =
      4 / 10 * isolationForestScore env.ifModel (features_to_array v) +
      6 / 10 * autoencoderScore env.scaler env.aeNet (features_to_array v) ∧
    0 ≤ isolationForestScore env.ifModel (features_to_array v) ∧
    isolationForestScore env.ifModel (features_to_array v) ≤ 1 ∧
    0 ≤ autoencoderScore env.scaler env.aeNet (features_to_array v) ∧
    autoencoderScore env.scaler env.aeNet (features_to_array v) ≤ 1 ∧
    0 ≤ (FraudDetector.score env false v).score ∧
    (FraudDetector.score env false v).score ≤ 1 ∧
    (FraudDetector.score env false v).threshold = 95 / 100 ∧
    0 ≤ (FraudDetector.score env false v).threshold ∧
    (FraudDetector.score env false v).threshold ≤ 1 ∧
    ((FraudDetector.score env false v).is_alert = true ↔
      (FraudDetector.score env false v).score >
        (FraudDetector.score env false v).threshold) := by
  have hif0 := isolationForestScore_nonneg env.ifModel (features_to_array v)
  have hif1 := isolationForestScore_le_one env.ifModel (features_to_array v)
  have hae0 := autoencoderScore_nonneg env.scaler env.aeNet (features_to_array v)
  have hae1 := autoencoderScore_le_one env.scaler env.aeNet (features_to_array v)
  have hsc : (FraudDetector.score env false v).score =
      4 / 10 * isolationForestScore env.ifModel (features_to_array v) +
      6 / 10 * autoencoderScore env.scaler env.aeNet (features_to_array v) := rfl
  have hth : (FraudDetector.score env false v).threshold = 95 / 100 := rfl
  refine ⟨hsc, hif0, hif1, hae0, hae1, ?_, ?_, hth, ?_, ?_, ?_⟩
  · rw [hsc]; linarith
  · rw [hsc]; linarith
  · rw [hth]; norm_num
  · rw [hth]; norm_num
  · exact decide_eq_true_iff

/-- Claim C2: when any exception is raised inside `FraudDetector.score`
it is caught and the method returns the default result with
`score = 0.5`, `is_alert = false`, `model_used = "fallback"` (and it
returns a `ScoreResult`, never re-raising). -/
theorem C2_fallback_on_exception (env : ModelEnv) (v : FeatureVector) :
    FraudDetector.score env true v = fallbackResult ∧
    (FraudDetector.score env true v).score = 1 / 2 ∧
    (FraudDetector.score env true v).is_alert = false ∧
    (FraudDetector.score env true v).model_used = "fallback" :=
  ⟨rfl, rfl, rfl, rfl⟩

/-- Claim C3 fails on the fallback path: the default result has
`confidence = 0.0`, while `min(1, score * 1.2) = min(1, 0.6) = 0.6`. -/
theorem C3_counterexample :
    (FraudDetector.score sampleModelEnv true sampleFV).confidence ≠
      min ((FraudDetector.score sampleModelEnv true sampleFV).score * (12 / 10)) 1 := by
  norm_num [FraudDetector.score, fallbackResult, min_def]

/-- Claim C3 amended: on the non-raising path
`confidence = min(1, score * 1.2)`; on the fallback path
`confidence = 0.0`. -/
theorem C3_confidence (env : ModelEnv) (exc : Bool) (v : FeatureVector) :
    (exc = false →
      (FraudDetector.score env exc v).confidence =
        min ((FraudDetector.score env exc v).score * (12 / 10)) 1) ∧
    (exc = true → (FraudDetector.score env exc v).confidence = 0) := by
  constructor
  · rintro rfl
    rfl
  · rintro rfl
    rfl

/-- Witness for C3: evaluating the amended claim on the fallback path
of a concrete call. -/
theorem C3_confidence_witness :
    (FraudDetector.score sampleModelEnv true sampleFV).confidence = 0 :=
  (C3_confidence sampleModelEnv true sampleFV).2 rfl

/-- Claim C4 fails as stated: on the failure path the three categorical
encodings are the constant `0.5` from `_get_default_features`, not the
hash encodings of the transaction's fields (here the process hash of
`merch_1` is `0`, so the claimed encoding would be `0`). -/
theorem C4_counterexample :
    engineer_features envA sampleTxn (.error ()) (.error ()) =
      get_default_features envA sampleTxn ∧
    (engineer_features envA sampleTxn (.error ()) (.error ())).merchant_id_encoded ≠
      (((envA.hash sampleTxn.merchant_id) % 1000 : ℤ) : ℚ) / 1000 := by
  refine ⟨rfl, ?_⟩
  norm_num [engineer_features, get_default_features, envA]

/-- Claim C4 amended: if any sub-computation of feature engineering
throws, `engineer_features` returns the default vector: every
history-derived field takes its empty-history default, the channel
flags and the time fields are still computed from the transaction, and
the three categorical encodings take the constant `0.5`; the call
itself always returns a vector. -/
theorem C4_default_on_failure (env : PyEnv) (T : Transaction)
    (hist : Except Unit (List HistRow)) (stats : Except Unit MerchantStats)
    (e : Unit) :
    engineer_features env T (.error e) stats = get_default_features env T ∧
    engineer_features env T hist (.error e) = get_default_features env T ∧
    (get_default_features env T).amount_z_score = 0 ∧
    (get_default_features env T).amount_rolling_mean_1h = 0 ∧
    (get_default_features env T).amount_rolling_std_1h = 1 ∧
    (get_default_features env T).amount_rolling_mean_24h = 0 ∧
    (get_default_features env T).amount_rolling_std_24h = 1 ∧
    (get_default_features env T).txn_count_5m = 0 ∧
    (get_default_features env T).txn_count_1h = 0 ∧
    (get_default_features env T).txn_count_24h = 0 ∧
    (get_default_features env T).distinct_merchants_5m = 0 ∧
    (get_default_features env T).distinct_merchants_1h = 0 ∧
    (get_default_features env T).distinct_merchants_24h = 0 ∧
    (get_default_features env T).speed_from_last_txn = none ∧
    (get_default_features env T).country_change = false ∧
    (get_default_features env T).city_change = false ∧
    (get_default_features env T).device_change = false ∧
    (get_default_features env T).ip_change = false ∧
    (get_default_features env T).hour_of_day = tsHour T.ts ∧
    (get_default_features env T).day_of_week = tsWeekday T.ts ∧
    (get_default_features env T).channel_card_present =
      decide (T.channel = Channel.card_present) ∧
    (get_default_features env T).channel_web = decide (T.channel = Channel.web) ∧
    (get_default_features env T).channel_app = decide (T.channel = Channel.app) ∧
    (get_default_features env T).merchant_id_encoded = 1 / 2 ∧
    (get_default_features env T).mcc_encoded = 1 / 2 ∧
    (get_default_features env T).country_encoded = 1 / 2 := by
  refine ⟨?_, ?_, rfl, rfl, rfl, rfl, rfl, rfl, rfl, rfl, rfl, rfl, rfl, rfl,
    rfl, rfl, rfl, rfl, rfl, rfl, rfl, rfl, rfl, rfl, rfl, rfl⟩
  · cases stats <;> rfl
  · cases hist <;> rfl

/-- A history row with the same timestamp as `sampleTxn` (time
difference zero) and both coordinates present. -/
def sampleHistSameTs : HistRow := { sampleHist with ts := sampleTxn.ts }

/-- Claim C5 fails as stated: with all four coordinates present and a
time difference of zero (≤ 0) the code stores `0.0`, not null. -/
theorem C5_counterexample :
    sampleTxn.ts - sampleHistSameTs.ts ≤ 0 ∧
    (calculate_geo_features envA sampleTxn
        [sampleHistSameTs]).speed_from_last_txn = some 0 := by
  refine ⟨le_refl _, ?_⟩
  norm_num [calculate_geo_features, pyTruthyQ, sampleTxn, sampleHistSameTs,
    sampleHist, envA]

/-- Claim C5 amended: for a non-empty history, `speed_from_last_txn`
is null when any of the four coordinates is missing or zero (Python
truthiness) or when the geodesic call raises; when all four are
present and nonzero and the geodesic distance is `d`, the speed is
`d` divided by the elapsed time in hours if that time is positive,
and `0.0` if the time difference is ≤ 0. -/
theorem C5_speed (env : PyEnv) (T : Transaction) (last_txn : HistRow)
    (rest : List HistRow) :
    ((pyTruthyQ T.lat && pyTruthyQ T.lon &&
        pyTruthyQ last_txn.lat && pyTruthyQ last_txn.lon) = false →
      (calculate_geo_features env T (last_txn :: rest)).speed_from_last_txn = none) ∧
    ((pyTruthyQ T.lat && pyTruthyQ T.lon &&
        pyTruthyQ last_txn.lat && pyTruthyQ last_txn.lon) = true →
      (∀ e : Unit, env.geodesic (last_txn.lat.getD 0, last_txn.lon.getD 0)
          (T.lat.getD 0, T.lon.getD 0) = .error e →
        (calculate_geo_features env T (last_txn :: rest)).speed_from_last_txn = none) ∧
      (∀ d : ℚ, env.geodesic (last_txn.lat.getD 0, last_txn.lon.getD 0)
          (T.lat.getD 0, T.lon.getD 0) = .ok d →
        (T.ts - last_txn.ts ≤ 0 →
          (calculate_geo_features env T (last_txn :: rest)).speed_from_last_txn = some 0) ∧
        (0 < T.ts - last_txn.ts →
          (calculate_geo_features env T (last_txn :: rest)).speed_from_last_txn =
            some (d / (((T.ts - last_txn.ts : ℤ) : ℚ) / 3600))))) := by
  constructor
  · intro hfalse
    simp only [calculate_geo_features, hfalse, Bool.false_eq_true, if_false]
  · intro htrue
    constructor
    · intro e herr
      simp only [calculate_geo_features, htrue, if_true, herr]
    · intro d hok
      have htd : (0 < ((T.ts - last_txn.ts : ℤ) : ℚ) / 3600) ↔ 0 < T.ts - last_txn.ts := by
        rw [lt_div_iff₀ (by norm_num : (0:ℚ) < 3600)]
        simp only [zero_mul]
        exact_mod_cast Iff.rfl
      constructor
      · intro hle
        have : ¬ (0 < ((T.ts - last_txn.ts : ℤ) : ℚ) / 3600) := by
          rw [htd]; omega
        simp only [calculate_geo_features, htrue, if_true, hok, this, if_false]
      · intro hlt
        have : 0 < ((T.ts - last_txn.ts : ℤ) : ℚ) / 3600 := htd.mpr hlt
        simp only [calculate_geo_features, htrue, if_true, hok, this, if_true]

/-- Witness for C5: the amended claim applied to a concrete call with
positive time difference. -/
theorem C5_speed_witness :
    (calculate_geo_features envA sampleTxn [sampleHist]).speed_from_last_txn =
      some (0 / (((sampleTxn.ts - sampleHist.ts : ℤ) : ℚ) / 3600)) :=
  (((C5_speed envA sampleTxn sampleHist []).2 (by decide)).2 0 rfl).2 (by decide)

/-- Claim C6 fails on the code: with a real device change (history
device `devA`, transaction device `devB`, both non-null and distinct),
the Python `and`-chain yields the string `devA`; pydantic rejects it
for the `bool` field `device_change`, the whole construction raises,
and `engineer_features` falls back to the default vector, whose
`device_change` is `false` where the claim requires `true` (and the
analogous `ip_change` value is also lost). -/
theorem C6_device_change_collapses :
    sampleHist.device_id ≠ sampleTxn.device_id ∧
    sampleHist.device_id ≠ none ∧ sampleTxn.device_id ≠ none ∧
    pyAndChange sampleHist.device_id sampleTxn.device_id = .pstr "devA" ∧
    pydanticBool (.pstr "devA") = .error () ∧
    engineer_features envA sampleTxn (.ok [sampleHist]) (.ok sampleStats) =
      get_default_features envA sampleTxn ∧
    (engineer_features envA sampleTxn
        (.ok [sampleHist]) (.ok sampleStats)).device_change = false := by
  refine ⟨by decide, by decide, by decide, rfl, rfl, rfl, rfl⟩

/-- Claim C7 fails across processes: the categorical encodings use the
builtin `hash`, whose salt differs between processes; under two process
environments that agree everywhere except the hash salt, the same
`(T, H, M)` input produces different feature vectors. -/
theorem C7_hash_not_cross_process :
    engineer_features envA sampleTxn (.ok []) (.ok sampleStats) ≠
      engineer_features envB sampleTxn (.ok []) (.ok sampleStats) ∧
    (engineer_features envA sampleTxn (.ok []) (.ok sampleStats)).merchant_id_encoded = 0 ∧
    (engineer_features envB sampleTxn (.ok []) (.ok sampleStats)).merchant_id_encoded = 1 / 1000 := by
  have hA : (engineer_features envA sampleTxn
        (.ok []) (.ok sampleStats)).merchant_id_encoded =
      (((0 : ℤ) % 1000 : ℤ) : ℚ) / 1000 := rfl
  have hB : (engineer_features envB sampleTxn
        (.ok []) (.ok sampleStats)).merchant_id_encoded =
      (((1 : ℤ) % 1000 : ℤ) : ℚ) / 1000 := rfl
  refine ⟨?_, ?_, ?_⟩
  · intro h
    have h2 := congrArg FeatureVector.merchant_id_encoded h
    rw [hA, hB] at h2
    norm_num at h2
  · rw [hA]; norm_num
  · rw [hB]; norm_num

theorem insertDoNothing_any {α : Type} (k : String) (v : α)
    (rel : List (String × α)) :
    (insertDoNothing k v rel).any (fun p => p.1 = k) = true := by
  unfold insertDoNothing
  split
  · assumption
  · simp

theorem insertDoNothing_absorb {α : Type} (k : String) (v v' : α)
    (rel : List (String × α)) :
    insertDoNothing k v (insertDoNothing k v' rel) = insertDoNothing k v' rel := by
  have h := insertDoNothing_any k v' rel
  generalize hR : insertDoNothing k v' rel = R at h ⊢
  simp [insertDoNothing, h]

/-- Claim C8: `store_transaction` is idempotent — a second call with
the same `txn_id` (whatever payloads it carries) is a no-op on the
transactions, features and scores relations. -/
theorem C8_store_idempotent (st : DBState) (t : Transaction)
    (f : FeatureVector) (s : ScoreResult) (t' : Transaction)
    (f' : FeatureVector) (s' : ScoreResult) (h : t'.txn_id = t.txn_id) :
    store_transaction (store_transaction st t f s) t' f' s' =
      store_transaction st t f s := by
  unfold store_transaction
  simp only [h, insertDoNothing_absorb]

/-- Witness for C8: a concrete double store collapses to a single one. -/
theorem C8_store_idempotent_witness :
    store_transaction (store_transaction ⟨[], [], []⟩ sampleTxn sampleFV sampleSR)
        sampleTxn sampleFV sampleSR =
      store_transaction ⟨[], [], []⟩ sampleTxn sampleFV sampleSR :=
  C8_store_idempotent ⟨[], [], []⟩ sampleTxn sampleFV sampleSR
    sampleTxn sampleFV sampleSR rfl

/-- Claim C9 is the intent but the code raises: with no transaction
rows for the merchant, the SQL aggregate computes
`COUNT(..)::float / COUNT(*) = 0 / 0` and PostgreSQL raises `division
by zero` instead of returning the all-zero `MerchantStats`. -/
theorem C9_no_rows_raises :
    get_merchant_stats [] "merch_9" = .error "division by zero" := rfl

theorem dedup_length_le_of_sublist {l₁ l₂ : List String}
    (h : List.Sublist l₁ l₂) :
    l₁.dedup.length ≤ l₂.dedup.length := by
  rw [← List.card_toFinset, ← List.card_toFinset]
  refine Finset.card_le_card ?_
  intro a ha
  rw [List.mem_toFinset] at ha ⊢
  exact h.subset ha

theorem velocity_window_sublist (T : Transaction) (H : List HistRow)
    (w₁ w₂ : ℤ) (hw : w₁ ≤ w₂) :
    List.Sublist (H.filter (fun r => decide (T.ts - w₁ ≤ r.ts)))
      (H.filter (fun r => decide (T.ts - w₂ ≤ r.ts))) := by
  refine List.monotone_filter_right H ?_
  intro r hr
  simp only [decide_eq_true_eq] at hr ⊢
  omega

/-- Claim C10: the velocity features are monotone in the window:
counts and distinct-merchant counts grow from the 5-minute to the
1-hour to the 24-hour window, and within each window the distinct
merchant count is at most the transaction count. -/
theorem C10_velocity_monotone (T : Transaction) (H : List HistRow) :
    (calculate_velocity_features T H).txn_count_5m ≤
      (calculate_velocity_features T H).txn_count_1h ∧
    (calculate_velocity_features T H).txn_count_1h ≤
      (calculate_velocity_features T H).txn_count_24h ∧
    (calculate_velocity_features T H).distinct_merchants_5m ≤
      (calculate_velocity_features T H).distinct_merchants_1h ∧
    (calculate_velocity_features T H).distinct_merchants_1h ≤
      (calculate_velocity_features T H).distinct_merchants_24h ∧
    (calculate_velocity_features T H).distinct_merchants_5m ≤
      (calculate_velocity_features T H).txn_count_5m ∧
    (calculate_velocity_features T H).distinct_merchants_1h ≤
      (calculate_velocity_features T H).txn_count_1h ∧
    (calculate_velocity_features T H).distinct_merchants_24h ≤
      (calculate_velocity_features T H).txn_count_24h := by
  have h51 := velocity_window_sublist T H 300 3600 (by norm_num)
  have h124 := velocity_window_sublist T H 3600 86400 (by norm_num)
  refine ⟨h51.length_le, h124.length_le,
    dedup_length_le_of_sublist (h51.map (·.merchant_id)),
    dedup_length_le_of_sublist (h124.map (·.merchant_id)), ?_, ?_, ?_⟩
  all_goals
    exact le_trans ((List.dedup_sublist _).length_le)
      (le_of_eq (List.length_map _ _))

end FraudShield
